import Mathlib

/-!
Shallow embedding of the layered elastoplastic beam material
(src/src/materials/LayeredBeam.C, header src/include/materials/PlasticBeam.h).

Machine reals (C++ `Real` = double) are modelled as exact rationals `ℚ`.
`std::sqrt` has no exact rational counterpart, so where the source calls it
(`computeQpStrain`, lines 418-428) the embedding abstracts it as a function
argument; concrete instantiations agree with the real square root on every
input at which they are used.  Division in `ℚ` is total with `x / 0 = 0`
(the C++ double division yields an infinity there); every theorem below that
touches a quotient either keeps the denominator away from zero or is
insensitive to the convention, and the one place the source can divide by an
exactly-zero denominator is exhibited explicitly (see
`reference_residual_exactly_zero`).
-/

namespace LayeredBeam

/-- The exception thrown by the per-layer plastic return mapping when the
Newton iteration exceeds `_max_its` (LayeredBeam.C line 779:
`throw MooseException("LayeredBeam: Plasticity model did not converge")`).
A distinct, catchable value rather than a silently returned number. -/
inductive MooseException where
  | plasticityNotConverged : MooseException
deriving DecidableEq, Repr

/-- The scalar material parameters of the plastic return mapping, read once at
configuration time (constructor, LayeredBeam.C lines 130-135):
`_material_flexure[_qp](2)` (the bending modulus used throughout
`computeQpStress`), `_yield_stress`, `_hardening_constant`, the optional
`_hardening_function` (modelled as its value function together with its
`timeDerivative`), `_absolute_tolerance` and `_relative_tolerance`. -/
structure PlasticityParams where
  material_flexure : ℚ
  yield_stress : ℚ
  hardening_constant : ℚ
  hardening_function : Option ((ℚ → ℚ) × (ℚ → ℚ))
  absolute_tolerance : ℚ
  relative_tolerance : ℚ

/-- `std::abs` on machine reals. -/
def qabs (x : ℚ) : ℚ := if x < 0 then -x else x

/-- `MathUtils::sign` as used at LayeredBeam.C line 781 (`sign(x) = 1` for
`x ≥ 0`, `-1` otherwise). -/
def msign (x : ℚ) : ℚ := if 0 ≤ x then 1 else -1

/-- `LayeredBeam::computeHardeningValue` (lines 805-817): with a hardening
function, `f(|plastic_strain_old| + scalar) - yield_stress`; otherwise the
linear law `hardening_variable_old + hardening_constant * scalar`. -/
def computeHardeningValue (p : PlasticityParams)
    (plastic_strain_old hardening_variable_old scalar : ℚ) : ℚ :=
  match p.hardening_function with
  | some f => f.1 (qabs plastic_strain_old + scalar) - p.yield_stress
  | none => hardening_variable_old + p.hardening_constant * scalar

/-- `LayeredBeam::computeHardeningDerivative` (lines 819-830): with a
hardening function, its time derivative at `|plastic_strain_old|` (the
`scalar` argument is ignored by the source); otherwise `hardening_constant`. -/
def computeHardeningDerivative (p : PlasticityParams)
    (plastic_strain_old _scalar : ℚ) : ℚ :=
  match p.hardening_function with
  | some f => f.2 (qabs plastic_strain_old)
  | none => p.hardening_constant

/-- The mutable state of the scalar Newton iteration of
`LayeredBeam::computeQpStress` (lines 752-780): the plastic strain increment,
the current hardening variable `(*_hardening_variable[i])[_qp]`, and the last
computed `residual` and `reference_residual`. -/
structure NewtonState where
  plastic_strain_increment : ℚ
  hardening_variable : ℚ
  residual : ℚ
  reference_residual : ℚ
deriving DecidableEq, Repr

/-- The `while` guard at LayeredBeam.C lines 760-761:
`std::abs(residual) > _absolute_tolerance ||
 std::abs(residual / reference_residual) > _relative_tolerance`. -/
def newtonCond (p : PlasticityParams) (s : NewtonState) : Bool :=
  decide (p.absolute_tolerance < qabs s.residual) ||
    decide (p.relative_tolerance < qabs (s.residual / s.reference_residual))

/-- One execution of the `while` body at LayeredBeam.C lines 762-776:
update the hardening variable and slope at the incoming plastic strain
increment, take the Newton step `scalar`, and recompute `residual` and
`reference_residual` at the updated increment. -/
def newtonStep (p : PlasticityParams)
    (trial_stress plastic_strain_old hardening_variable_old : ℚ)
    (s : NewtonState) : NewtonState :=
  let h := computeHardeningValue p plastic_strain_old hardening_variable_old
      s.plastic_strain_increment
  let hardening_slope := computeHardeningDerivative p plastic_strain_old
      s.plastic_strain_increment
  let scalar := (qabs trial_stress - h - p.yield_stress -
      p.material_flexure * s.plastic_strain_increment) /
      (p.material_flexure + hardening_slope)
  let pei := s.plastic_strain_increment + scalar
  { plastic_strain_increment := pei
    hardening_variable := h
    residual := qabs trial_stress - h - p.yield_stress - p.material_flexure * pei
    reference_residual := qabs trial_stress - p.material_flexure * pei }

/-- `_max_its`, hard-wired to `1000` in the constructor initialiser list
(LayeredBeam.C line 148). -/
def max_its : ℕ := 1000

/-- The Newton `while` loop of LayeredBeam.C lines 760-780, with the number of
permitted further body executions made explicit: the guard is re-checked
before each body; running the body with no budget left corresponds to
`iteration > _max_its` and raises the `MooseException` of line 779 (whose
partial updates are discarded by the throw). -/
def newtonLoop (p : PlasticityParams)
    (trial_stress plastic_strain_old hardening_variable_old : ℚ) :
    ℕ → NewtonState → Except MooseException NewtonState
  | 0, s =>
    if newtonCond p s then .error .plasticityNotConverged else .ok s
  | fuel + 1, s =>
    if newtonCond p s then
      newtonLoop p trial_stress plastic_strain_old hardening_variable_old fuel
        (newtonStep p trial_stress plastic_strain_old hardening_variable_old s)
    else .ok s

/-- The state on entry to the `while` loop (LayeredBeam.C lines 740-758):
`plastic_strain_increment = 0`, the hardening variable copied from the old
step, and `residual`/`reference_residual` evaluated at zero increment. -/
def initNewtonState (p : PlasticityParams)
    (trial_stress hardening_variable_old : ℚ) : NewtonState :=
  { plastic_strain_increment := 0
    hardening_variable := hardening_variable_old
    residual := qabs trial_stress - hardening_variable_old - p.yield_stress -
      p.material_flexure * 0
    reference_residual := qabs trial_stress - p.material_flexure * 0 }

/-- The previous-step ("old") state of one cross-section layer: the stateful
properties `direct_stress<i>`, `plastic_strain<i>`, `hardening_variable<i>`
fetched with `getMaterialPropertyOld` (LayeredBeam.C lines 189-198). -/
structure LayerOld where
  direct_stress_old : ℚ
  plastic_strain_old : ℚ
  hardening_variable_old : ℚ
deriving DecidableEq, Repr

/-- The current-step state of one cross-section layer, written by
`computeQpStress` (LayeredBeam.C lines 740-741, 785, 791). -/
structure LayerOut where
  direct_stress : ℚ
  plastic_strain : ℚ
  hardening_variable : ℚ
deriving DecidableEq, Repr

/-- The body of the layer loop of `LayeredBeam::computeQpStress`
(lines 733-791) for a single layer at centroid offset `zmidl`: trial stress,
yield check, Newton return mapping when the yield condition is exceeded, sign
application, and the stress/plastic-strain/hardening-variable updates. -/
def returnMapLayer (p : PlasticityParams) (strain_increment zmidl : ℚ)
    (l : LayerOld) : Except MooseException LayerOut :=
  let trial_stress := l.direct_stress_old +
    p.material_flexure * strain_increment * zmidl
  let yield_condition := qabs trial_stress - l.hardening_variable_old -
    p.yield_stress
  if 0 < yield_condition then
    match newtonLoop p trial_stress l.plastic_strain_old
        l.hardening_variable_old max_its
        (initNewtonState p trial_stress l.hardening_variable_old) with
    | .error e => .error e
    | .ok s =>
      let plastic_strain_increment :=
        s.plastic_strain_increment * msign trial_stress
      let elastic_strain_increment :=
        strain_increment * zmidl - plastic_strain_increment
      .ok { direct_stress := l.direct_stress_old +
              elastic_strain_increment * p.material_flexure
            plastic_strain := l.plastic_strain_old + plastic_strain_increment
            hardening_variable := s.hardening_variable }
  else
    .ok { direct_stress := l.direct_stress_old +
            strain_increment * zmidl * p.material_flexure
          plastic_strain := l.plastic_strain_old
          hardening_variable := l.hardening_variable_old }

/-- The layer loop of `LayeredBeam::computeQpStress` (lines 727-800):
`zmidl` advances by half a layer thickness before and after each layer, and
`moment` accumulates `direct_stress * width * zmidl * thick`.  Returns the
per-layer outputs together with the final `_stres[_qp]` (the moment). -/
def qpStressAux (p : PlasticityParams) (width thick strain_increment : ℚ) :
    List LayerOld → ℚ → ℚ → Except MooseException (List LayerOut × ℚ)
  | [], _, moment => .ok ([], moment)
  | l :: rest, zmidl, moment =>
    match returnMapLayer p strain_increment (zmidl + thick / 2) l with
    | .error e => .error e
    | .ok out =>
      match qpStressAux p width thick strain_increment rest
          (zmidl + thick / 2 + thick / 2)
          (moment +
            out.direct_stress * width * (zmidl + thick / 2) * thick) with
      | .error e => .error e
      | .ok (outs, m) => .ok (out :: outs, m)

/-- `LayeredBeam::computeQpStress` (lines 706-803): the cross-section is cut
into `_nlayers` layers of thickness `_depth / _nlayers`; the running offset
starts at `-0.5 * _depth`; the number of layers equals the length of the
per-layer state vectors (both are `_nlayers`, lines 182-187). -/
def computeQpStress (p : PlasticityParams) (width depth strain_increment : ℚ)
    (old : List LayerOld) : Except MooseException (List LayerOut × ℚ) :=
  qpStressAux p width (depth / (old.length : ℚ)) strain_increment old
    (-(1 / 2) * depth) 0

/-- The centroid offset of layer `i` (0-based) implied by the running updates
of lines 716, 731, 799: `z_i = -depth/2 + thick/2 + i·thick`. -/
def zmid (depth : ℚ) (N i : ℕ) : ℚ :=
  -(1 / 2) * depth + (depth / N) / 2 + i * (depth / N)

/-- A layer whose current state merely copies its previous state. -/
def stayLayer (l : LayerOld) : LayerOut :=
  { direct_stress := l.direct_stress_old
    plastic_strain := l.plastic_strain_old
    hardening_variable := l.hardening_variable_old }

/-- The curvature `_total_stretch[_qp]` driving the layer update
(LayeredBeam.C lines 318, 323, 328): the z-component of the rotation gradient
`(1/L)·(rot1 - rot0)` rotated into the beam local frame. -/
def totalStretch (R : Matrix (Fin 3) (Fin 3) ℚ) (rot0 rot1 : Fin 3 → ℚ)
    (original_length : ℚ) : ℚ :=
  R.mulVec (fun i => 1 / original_length * (rot1 i - rot0 i)) 2

/-- The total-strain accumulator updates of `LayeredBeam::computeQpStrain`
(lines 402-405).  Note the source adds `_total_disp_strain_old` in **both**
updates; `_total_rot_strain_old` is fetched (line 106) but never used. -/
def computeTotalStrains (R : Matrix (Fin 3) (Fin 3) ℚ)
    (mech_disp_strain_increment mech_rot_strain_increment : Fin 3 → ℚ)
    (total_disp_strain_old _total_rot_strain_old : Fin 3 → ℚ) :
    (Fin 3 → ℚ) × (Fin 3 → ℚ) :=
  (R.transpose.mulVec mech_disp_strain_increment + total_disp_strain_old,
   R.transpose.mulVec mech_rot_strain_increment + total_disp_strain_old)

/-- The constructor-time configuration check at LayeredBeam.C lines 166-169:
`mooseError` is raised iff this returns `true`.  It fires before any call of
`computeProperties`, hence before any stress computation. -/
def largeStrainCheckFails (large_strain : Bool) (Ay0 Ay1 Az0 Az1 : ℚ) : Bool :=
  large_strain &&
    (decide (0 < Ay0) || decide (0 < Ay1) || decide (0 < Az0) ||
      decide (0 < Az1))

/-- The effective-stiffness computation of `computeQpStrain` (lines 418-428),
with `std::sqrt` abstracted as the argument `sq`.  The optional prefactor
models `_prefactor_function->value(_t, _q_point[_qp])`, the function value at
the current time and the quadrature point position. -/
def computeEffectiveStiffness (sq : ℚ → ℚ)
    (material_stiffness_0 material_stiffness_1 A_avg Iz_avg
      original_length : ℚ) (prefactor : Option ℚ) : ℚ :=
  let c1_paper := sq material_stiffness_0
  let c2_paper := sq material_stiffness_1
  let effec_stiff_1 := max c1_paper c2_paper
  let effec_stiff_2 := 2 / (c2_paper * sq (A_avg / Iz_avg))
  let base := max effec_stiff_1 (original_length / effec_stiff_2)
  match prefactor with
  | some v => base * sq v
  | none => base

/-- The effective stiffness as the specification words it (claim C8): the
same max expression, but scaled by the prefactor function's **value**. -/
def specEffectiveStiffness (sq : ℚ → ℚ)
    (material_stiffness_0 material_stiffness_1 A_avg Iz_avg
      original_length : ℚ) (v : ℚ) : ℚ :=
  max (max (sq material_stiffness_0) (sq material_stiffness_1))
    (original_length / (2 / (sq material_stiffness_1 * sq (A_avg / Iz_avg)))) *
    v

/-- C1 counterexample input: a state whose residual already satisfies the
absolute tolerance while the relative check still fails. -/
def c1Params : PlasticityParams :=
  { material_flexure := 1, yield_stress := 1, hardening_constant := 0
    hardening_function := none
    absolute_tolerance := 1, relative_tolerance := 1 / 100 }

/-- C3 counterexample input: linear hardening with loose tolerances
(`absolute_tolerance = 2`, `relative_tolerance = 1`), so a trial stress that
exceeds the yield condition can nevertheless skip the Newton loop. -/
def c3Params : PlasticityParams :=
  { material_flexure := 1, yield_stress := 1, hardening_constant := 0
    hardening_function := none
    absolute_tolerance := 2, relative_tolerance := 1 }

/-- C3 witness input: linear hardening with slope 1 and tight tolerances. -/
def c3wParams : PlasticityParams :=
  { material_flexure := 1, yield_stress := 1, hardening_constant := 1
    hardening_function := none
    absolute_tolerance := 1 / 1000, relative_tolerance := 1 / 1000 }

/-- C7/C6 input: linear hardening, slope 0, tight tolerances. -/
def c7Params : PlasticityParams :=
  { material_flexure := 1, yield_stress := 1, hardening_constant := 0
    hardening_function := none
    absolute_tolerance := 1 / 1000, relative_tolerance := 1 / 1000 }

/-- C6 witness input: a yield stress so large that both layers stay elastic. -/
def elasticParams : PlasticityParams :=
  { material_flexure := 1, yield_stress := 100, hardening_constant := 0
    hardening_function := none
    absolute_tolerance := 1 / 1000, relative_tolerance := 1 / 1000 }

/-- C9 input: softening (`hardening_constant = -1/2`), for which one Newton
update lands the reference residual exactly on zero. -/
def c9Params : PlasticityParams :=
  { material_flexure := 1, yield_stress := 1, hardening_constant := -(1 / 2)
    hardening_function := none
    absolute_tolerance := 1 / 1000, relative_tolerance := 1 / 100000000 }

/-- A rational stand-in for `std::sqrt` on the inputs used by the C8
counterexample; it agrees with the real square root there
(`sqrt 1 = 1`, `sqrt 4 = 2`). -/
def sqrtOn14 (q : ℚ) : ℚ := if q = 4 then 2 else 1

/-- C1 — counterexample.  With `absolute_tolerance = 1` and
`relative_tolerance = 1/100`, a state with `residual = 1` and
`reference_residual = 1` satisfies `|R| ≤ absolute_tolerance`, yet the loop
guard of lines 760-761 is still true, so the iteration does **not** stop:
satisfying one tolerance alone does not terminate the loop. -/
theorem newton_stop_either_is_false :
    qabs (NewtonState.mk 0 0 1 1).residual ≤ c1Params.absolute_tolerance ∧
      newtonCond c1Params (NewtonState.mk 0 0 1 1) = true := by
  constructor
  · norm_num [qabs, c1Params]
  · norm_num [newtonCond, qabs, c1Params]

/-- C1 (amended) — the source's Newton loop stops exactly when **both**
`|residual| ≤ absolute_tolerance` and
`|residual / reference_residual| ≤ relative_tolerance` hold; satisfying a
single tolerance does not suffice (LayeredBeam.C lines 760-761). -/
theorem newton_stop_iff_both (p : PlasticityParams) (s : NewtonState) :
    newtonCond p s = false ↔
      qabs s.residual ≤ p.absolute_tolerance ∧
        qabs (s.residual / s.reference_residual) ≤ p.relative_tolerance := by
  simp [newtonCond, not_or, not_lt]

theorem qabs_eq_abs (x : ℚ) : qabs x = |x| := by
  unfold qabs
  rcases lt_or_le x 0 with h | h
  · simp [abs_of_neg h, h]
  · simp [abs_of_nonneg h, not_lt.mpr h]

theorem qabs_nonneg (x : ℚ) : 0 ≤ qabs x := by
  rw [qabs_eq_abs]; exact abs_nonneg x

theorem newtonLoop_zero (p : PlasticityParams) (t a b : ℚ) (s : NewtonState) :
    newtonLoop p t a b 0 s =
      if newtonCond p s then .error .plasticityNotConverged else .ok s := rfl

theorem newtonLoop_succ (p : PlasticityParams) (t a b : ℚ) (n : ℕ)
    (s : NewtonState) :
    newtonLoop p t a b (n + 1) s =
      if newtonCond p s then
        newtonLoop p t a b n (newtonStep p t a b s)
      else .ok s := rfl

/-- Any state the loop returns successfully fails the `while` guard. -/
theorem newtonLoop_ok_guard (p : PlasticityParams) (t a b : ℚ) :
    ∀ (fuel : ℕ) (s r : NewtonState),
      newtonLoop p t a b fuel s = .ok r → newtonCond p r = false := by
  intro fuel
  induction fuel with
  | zero =>
    intro s r h
    rw [newtonLoop_zero] at h
    by_cases hc : newtonCond p s
    · rw [if_pos hc] at h; exact absurd h (by simp)
    · rw [if_neg hc] at h
      obtain rfl : s = r := by simpa using h
      simpa using hc
  | succ n ih =>
    intro s r h
    rw [newtonLoop_succ] at h
    by_cases hc : newtonCond p s
    · rw [if_pos hc] at h; exact ih _ _ h
    · rw [if_neg hc] at h
      obtain rfl : s = r := by simpa using h
      simpa using hc

/-- A negative absolute tolerance can never be met, so the guard always
holds. -/
theorem newtonCond_of_neg_abs_tol (p : PlasticityParams) (s : NewtonState)
    (h : p.absolute_tolerance < 0) : newtonCond p s = true := by
  unfold newtonCond
  have hx : p.absolute_tolerance < qabs s.residual :=
    lt_of_lt_of_le h (qabs_nonneg _)
  simp [hx]

/-- With an unmeetable tolerance the loop exhausts any budget and raises the
exception. -/
theorem newtonLoop_neg_abs_tol (p : PlasticityParams) (t a b : ℚ)
    (h : p.absolute_tolerance < 0) :
    ∀ (fuel : ℕ) (s : NewtonState),
      newtonLoop p t a b fuel s = .error .plasticityNotConverged := by
  intro fuel
  induction fuel with
  | zero =>
    intro s
    rw [newtonLoop_zero, if_pos (newtonCond_of_neg_abs_tol p s h)]
  | succ n ih =>
    intro s
    rw [newtonLoop_succ, if_pos (newtonCond_of_neg_abs_tol p s h)]
    exact ih _

/-- C4 — the per-layer Newton iteration budget is the hard-wired
`_max_its = 1000` (LayeredBeam.C line 148); a successful return always
satisfies the convergence guard (so a non-converged state is never silently
returned); and an instance whose tolerances can never be met terminates with
the distinct, catchable `MooseException` of line 779 rather than a value —
the solver itself performs no retry (its only outcomes are `.ok` and this
error). -/
theorem newton_iteration_cap :
    max_its = 1000 ∧
      (∀ (p : PlasticityParams) (t a b : ℚ) (fuel : ℕ) (s r : NewtonState),
        newtonLoop p t a b fuel s = .ok r → newtonCond p r = false) ∧
      (∀ (p : PlasticityParams) (t a b : ℚ) (s : NewtonState),
        p.absolute_tolerance < 0 →
          newtonLoop p t a b max_its s = .error .plasticityNotConverged) :=
  ⟨rfl, fun p t a b fuel s r h => newtonLoop_ok_guard p t a b fuel s r h,
    fun p t a b s h => newtonLoop_neg_abs_tol p t a b h max_its s⟩

/-- C4 — witness: a state already inside tolerance is returned unchanged (and
indeed fails the guard), while negative tolerances force the exception. -/
theorem newton_iteration_cap_witness :
    (newtonLoop c1Params 0 0 0 1000 (NewtonState.mk 0 0 0 1) =
        .ok (NewtonState.mk 0 0 0 1)) ∧
      newtonCond c1Params (NewtonState.mk 0 0 0 1) = false ∧
      newtonLoop
          (PlasticityParams.mk 1 1 0 none (-1) (-1)) 2 0 0 max_its
          (initNewtonState (PlasticityParams.mk 1 1 0 none (-1) (-1)) 2 0) =
        .error .plasticityNotConverged := by
  have hguard : newtonCond c1Params (NewtonState.mk 0 0 0 1) = false := by
    norm_num [newtonCond, qabs, c1Params]
  have hok : newtonLoop c1Params 0 0 0 1000 (NewtonState.mk 0 0 0 1) =
      .ok (NewtonState.mk 0 0 0 1) := by
    rw [show (1000 : ℕ) = 999 + 1 from rfl, newtonLoop_succ, if_neg (by
      simp [hguard])]
  exact ⟨hok,
    newton_iteration_cap.2.1 c1Params 0 0 0 1000 _ _ hok,
    newton_iteration_cap.2.2 _ 2 0 0 _ (by norm_num)⟩

/-- C9 — confirmed.  With modulus 1, yield stress 1, softening slope `-1/2`
and trial stress 2 (all legal inputs), the loop guard holds at entry, and one
execution of the Newton body lands `reference_residual` exactly on zero while
the residual is still `-1`, so the very next guard evaluation divides the
residual by an exactly-zero denominator — the source (lines 757-775) has no
guard against this. -/
theorem reference_residual_exactly_zero :
    newtonCond c9Params (initNewtonState c9Params 2 0) = true ∧
      (newtonStep c9Params 2 0 0
          (initNewtonState c9Params 2 0)).reference_residual = 0 ∧
      (newtonStep c9Params 2 0 0
          (initNewtonState c9Params 2 0)).residual ≠ 0 := by
  refine ⟨?_, ?_, ?_⟩
  · norm_num [newtonCond, initNewtonState, qabs, c9Params]
  · norm_num [newtonStep, initNewtonState, computeHardeningValue,
      computeHardeningDerivative, qabs, c9Params]
  · norm_num [newtonStep, initNewtonState, computeHardeningValue,
      computeHardeningDerivative, qabs, c9Params]

/-- C5 — counterexample.  `large_strain = true` together with the non-zero
first moment `Ay(node 0) = -1` is accepted by the configuration check of
LayeredBeam.C lines 166-169 (the check compares with `> 0.0` only), although
the claim requires a failure for non-zero first moments of either sign. -/
theorem large_strain_negative_first_moment_accepted :
    largeStrainCheckFails true (-1) 0 0 0 = false ∧ ((-1 : ℚ) ≠ 0) := by
  constructor
  · simp only [largeStrainCheckFails, Bool.true_and, Bool.or_eq_false_iff,
      decide_eq_false_iff_not]
    norm_num
  · norm_num

/-- C5 (amended) — the constructor rejects the configuration iff
`large_strain` is set and at least one of the four first-moment samples
`Ay(0), Ay(1), Az(0), Az(1)` is **strictly positive**; negative first moments
pass the check.  (The check runs in the constructor, before any
`computeProperties` call, hence before any stress computation.) -/
theorem large_strain_check_iff_positive (large_strain : Bool)
    (Ay0 Ay1 Az0 Az1 : ℚ) :
    largeStrainCheckFails large_strain Ay0 Ay1 Az0 Az1 = true ↔
      large_strain = true ∧ (0 < Ay0 ∨ 0 < Ay1 ∨ 0 < Az0 ∨ 0 < Az1) := by
  simp [largeStrainCheckFails, or_assoc]

/-- C8 — counterexample.  With unit moduli, section properties and length,
and a prefactor value of 4, the source (line 428) multiplies the base
stiffness by `sqrt 4 = 2`, not by the value 4 the claim asserts. -/
theorem effective_stiffness_prefactor_is_sqrt :
    computeEffectiveStiffness sqrtOn14 1 1 1 1 1 (some 4) ≠
      specEffectiveStiffness sqrtOn14 1 1 1 1 1 4 := by
  norm_num [computeEffectiveStiffness, specEffectiveStiffness, sqrtOn14,
    max_def]

/-- C8 (amended) — the effective stiffness equals
`max (max √E √G) (L / (2 / (√G·√(A_avg/Iz_avg))))`, and a supplied prefactor
(evaluated by the source at the current time and the quadrature point's
position) scales the result by the **square root** of its value. -/
theorem effective_stiffness_formula (sq : ℚ → ℚ)
    (ms0 ms1 A_avg Iz_avg original_length v : ℚ) :
    computeEffectiveStiffness sq ms0 ms1 A_avg Iz_avg original_length
        (some v) =
      max (max (sq ms0) (sq ms1))
          (original_length / (2 / (sq ms1 * sq (A_avg / Iz_avg)))) * sq v ∧
      computeEffectiveStiffness sq ms0 ms1 A_avg Iz_avg original_length none =
        max (max (sq ms0) (sq ms1))
          (original_length / (2 / (sq ms1 * sq (A_avg / Iz_avg)))) :=
  ⟨rfl, rfl⟩

/-- C2 — the source at LayeredBeam.C lines 404-405 adds
`_total_disp_strain_old` (not `_total_rot_strain_old`) to the rotated
rotation-strain increment: with identity rotation, zero increments, old total
displacement strain `(1,0,0)` and old total rotation strain `0`, the new
total rotation strain is `(1,0,0)`, not the
`previous rotation strain + rotated increment = 0` the claim requires.
(`_total_rot_strain_old` is fetched at line 106 but never used.) -/
theorem total_rot_strain_adds_disp_old :
    (computeTotalStrains (1 : Matrix (Fin 3) (Fin 3) ℚ) 0 0 ![1, 0, 0] 0).2 =
        ![1, 0, 0] ∧
      (![1, 0, 0] : Fin 3 → ℚ) ≠
        (1 : Matrix (Fin 3) (Fin 3) ℚ).transpose.mulVec 0 +
          (0 : Fin 3 → ℚ) := by
  constructor
  · simp [computeTotalStrains, Matrix.mulVec_zero]
  · intro h
    have h0 := congrFun h 0
    simp [Matrix.mulVec_zero] at h0

/-- With linear hardening, the residual vanishes identically after the
second Newton body execution. -/
theorem newtonStep_init_linear (p : PlasticityParams) (t pso hvo : ℚ)
    (hf : p.hardening_function = none) :
    newtonStep p t pso hvo (initNewtonState p t hvo) =
      NewtonState.mk
        ((qabs t - hvo - p.yield_stress) /
          (p.material_flexure + p.hardening_constant))
        hvo
        (qabs t - hvo - p.yield_stress - p.material_flexure *
          ((qabs t - hvo - p.yield_stress) /
            (p.material_flexure + p.hardening_constant)))
        (qabs t - p.material_flexure *
          ((qabs t - hvo - p.yield_stress) /
            (p.material_flexure + p.hardening_constant))) := by
  simp only [newtonStep, initNewtonState, computeHardeningValue,
    computeHardeningDerivative, hf]
  rw [NewtonState.mk.injEq]
  refine ⟨?_, ?_, ?_, ?_⟩ <;> ring

theorem newtonStep_fixed_linear (p : PlasticityParams) (t pso hvo x r2 : ℚ)
    (hf : p.hardening_function = none)
    (hEc : p.material_flexure + p.hardening_constant ≠ 0)
    (hx : x = (qabs t - hvo - p.yield_stress) /
      (p.material_flexure + p.hardening_constant)) :
    newtonStep p t pso hvo (NewtonState.mk x hvo r2 (qabs t -
        p.material_flexure * x)) =
      NewtonState.mk x (hvo + p.hardening_constant * x) 0
        (qabs t - p.material_flexure * x) := by
  have hzero : qabs t - (hvo + p.hardening_constant * x) - p.yield_stress -
      p.material_flexure * x = 0 := by
    have h1 : qabs t - (hvo + p.hardening_constant * x) - p.yield_stress -
        p.material_flexure * x =
        (qabs t - hvo - p.yield_stress) -
          (p.material_flexure + p.hardening_constant) * x := by ring
    rw [h1, hx, mul_comm, div_mul_cancel₀ _ hEc, sub_self]
  simp only [newtonStep, computeHardeningValue, computeHardeningDerivative, hf]
  rw [NewtonState.mk.injEq]
  refine ⟨?_, rfl, ?_, ?_⟩
  · rw [hzero, zero_div, add_zero]
  · rw [hzero, zero_div, add_zero]
    exact hzero
  · rw [hzero, zero_div, add_zero]

theorem newtonCond_of_zero_residual (p : PlasticityParams) (x h ref : ℚ)
    (ha : 0 ≤ p.absolute_tolerance) (hr : 0 ≤ p.relative_tolerance) :
    newtonCond p (NewtonState.mk x h 0 ref) = false := by
  simp only [newtonCond, Bool.or_eq_false_iff, decide_eq_false_iff_not,
    not_lt, zero_div]
  have h0 : qabs 0 = 0 := by simp [qabs]
  exact ⟨by rw [h0]; exact ha, by rw [h0]; exact hr⟩

/-- C3 (amended) — for linear hardening (no hardening function), nonnegative
tolerances and `modulus + slope ≠ 0`, whenever the trial stress exceeds the
yield condition **and** the initial residual fails the tolerance test (so the
Newton loop actually runs), the solve returns with the unsigned plastic
strain increment equal to the closed-form value
`(|trial| - yield_stress - hardening_old) / (modulus + slope)`.  (When the
initial residual already satisfies both tolerances, the loop body never runs
and the increment stays `0` — see the counterexample.) -/
theorem linear_hardening_closed_form (p : PlasticityParams) (t pso hvo : ℚ)
    (hf : p.hardening_function = none)
    (ha : 0 ≤ p.absolute_tolerance) (hr : 0 ≤ p.relative_tolerance)
    (hEc : p.material_flexure + p.hardening_constant ≠ 0)
    (hyield : 0 < qabs t - hvo - p.yield_stress)
    (hentry : newtonCond p (initNewtonState p t hvo) = true) :
    ∃ s, newtonLoop p t pso hvo max_its (initNewtonState p t hvo) = .ok s ∧
      s.plastic_strain_increment =
        (qabs t - p.yield_stress - hvo) /
          (p.material_flexure + p.hardening_constant) := by
  have hxgoal : (qabs t - hvo - p.yield_stress) /
      (p.material_flexure + p.hardening_constant) =
      (qabs t - p.yield_stress - hvo) /
        (p.material_flexure + p.hardening_constant) := by ring_nf
  rw [show max_its = 998 + 1 + 1 from rfl, newtonLoop_succ, if_pos hentry,
    newtonStep_init_linear p t pso hvo hf]
  by_cases hc1 : newtonCond p (NewtonState.mk
      ((qabs t - hvo - p.yield_stress) /
        (p.material_flexure + p.hardening_constant))
      hvo
      (qabs t - hvo - p.yield_stress - p.material_flexure *
        ((qabs t - hvo - p.yield_stress) /
          (p.material_flexure + p.hardening_constant)))
      (qabs t - p.material_flexure *
        ((qabs t - hvo - p.yield_stress) /
          (p.material_flexure + p.hardening_constant)))) = true
  · rw [newtonLoop_succ, if_pos hc1,
      newtonStep_fixed_linear p t pso hvo _ _ hf hEc rfl,
      show (998 : ℕ) = 997 + 1 from rfl, newtonLoop_succ,
      if_neg (by simp [newtonCond_of_zero_residual p _ _ _ ha hr])]
    exact ⟨_, rfl, hxgoal⟩
  · rw [newtonLoop_succ, if_neg hc1]
    exact ⟨_, rfl, hxgoal⟩

/-- C3 — counterexample.  With linear hardening (modulus 1, yield stress 1,
slope 0) and the configured tolerances `absolute = 2`, `relative = 1`, the
trial stress `2` exceeds the yield condition (`|2| - 0 - 1 = 1 > 0`), yet the
initial residual already satisfies both tolerance checks, so the Newton loop
body never runs and the produced plastic strain increment is `0`, not the
closed-form value `(|2| - 1 - 0)/(1 + 0) = 1`. -/
theorem yield_exceeded_but_loop_skipped :
    0 < qabs (2 : ℚ) - 0 - c3Params.yield_stress ∧
      newtonLoop c3Params 2 0 0 max_its (initNewtonState c3Params 2 0) =
        .ok (initNewtonState c3Params 2 0) ∧
      (initNewtonState c3Params 2 0).plastic_strain_increment ≠
        (qabs (2 : ℚ) - c3Params.yield_stress - 0) /
          (c3Params.material_flexure + c3Params.hardening_constant) := by
  have hcond : newtonCond c3Params (initNewtonState c3Params 2 0) = false := by
    norm_num [newtonCond, initNewtonState, qabs, c3Params]
  refine ⟨by norm_num [qabs, c3Params], ?_, ?_⟩
  · rw [show max_its = 999 + 1 from rfl, newtonLoop_succ,
      if_neg (by simp [hcond])]
  · norm_num [initNewtonState, qabs, c3Params]

/-- C3 — witness for the amended closed-form theorem: modulus 1, slope 1,
yield stress 1, trial stress 2 gives increment `(2 - 1 - 0)/(1 + 1)`. -/
theorem linear_hardening_closed_form_witness :
    newtonCond c3wParams (initNewtonState c3wParams 2 0) = true ∧
      (0 : ℚ) < qabs (2 : ℚ) - 0 - c3wParams.yield_stress ∧
      ∃ s, newtonLoop c3wParams 2 0 0 max_its
          (initNewtonState c3wParams 2 0) = .ok s ∧
        s.plastic_strain_increment =
          (qabs (2 : ℚ) - c3wParams.yield_stress - 0) /
            (c3wParams.material_flexure + c3wParams.hardening_constant) := by
  have hentry : newtonCond c3wParams (initNewtonState c3wParams 2 0) = true := by
    norm_num [newtonCond, initNewtonState, qabs, c3wParams]
  exact ⟨hentry, by norm_num [qabs, c3wParams],
    linear_hardening_closed_form c3wParams 2 0 0 rfl
      (by norm_num [c3wParams]) (by norm_num [c3wParams])
      (by norm_num [c3wParams]) (by norm_num [qabs, c3wParams]) hentry⟩

/-- Whatever the layer loop returns, it returns one output per input layer
and the moment accumulator plus the midpoint-rule sum. -/
theorem qpStressAux_spec (p : PlasticityParams) (w t si : ℚ) :
    ∀ (olds : List LayerOld) (z m0 : ℚ) (outs : List LayerOut) (m : ℚ),
      qpStressAux p w t si olds z m0 = .ok (outs, m) →
      outs.length = olds.length ∧
        m = m0 + ∑ i ∈ Finset.range olds.length,
          (outs.getD i (LayerOut.mk 0 0 0)).direct_stress * w *
            (z + t / 2 + i * t) * t := by
  intro olds
  induction olds with
  | nil =>
    intro z m0 outs m h
    rw [qpStressAux] at h
    obtain ⟨rfl, rfl⟩ : [] = outs ∧ m0 = m := by simpa using h
    simp
  | cons l rest ih =>
    intro z m0 outs m h
    rw [qpStressAux] at h
    split at h
    · simp at h
    · rename_i out hret
      split at h
      · simp at h
      · rename_i outs' m' haux
        obtain ⟨rfl, rfl⟩ : out :: outs' = outs ∧ m' = m := by simpa using h
        obtain ⟨hlen, hm⟩ := ih (z + t / 2 + t / 2) _ outs' m' haux
        refine ⟨by simp [hlen], ?_⟩
        have hterm : ∀ i ∈ Finset.range rest.length,
            ((out :: outs').getD (i + 1) (LayerOut.mk 0 0 0)).direct_stress *
                w * (z + t / 2 + (i + 1 : ℕ) * t) * t =
              (outs'.getD i (LayerOut.mk 0 0 0)).direct_stress * w *
                (z + t / 2 + t / 2 + t / 2 + i * t) * t := by
          intro i _
          rw [List.getD_cons_succ]
          push_cast
          ring
        rw [List.length_cons, Finset.sum_range_succ',
          Finset.sum_congr rfl hterm, hm]
        simp only [List.getD_cons_zero, Nat.cast_zero, zero_mul, add_zero]
        ring

/-- C6 — the stress integrator: the result list has one entry per layer; the
returned stress resultant is the midpoint-rule sum
`Σ direct_stress_i · width · z_i · thick` over all layers; the layer
thickness `depth / N` exactly tiles the depth; the visiting order runs from
the most negative offset to the most positive; and each offset is the
centroid (midpoint) of its layer `[-depth/2 + i·thick, -depth/2 + (i+1)·thick]`. -/
theorem stress_resultant_integration (p : PlasticityParams)
    (width depth strain_increment : ℚ) (old : List LayerOld)
    (outs : List LayerOut) (m : ℚ)
    (hN : 1 ≤ old.length) (hdepth : 0 < depth)
    (h : computeQpStress p width depth strain_increment old = .ok (outs, m)) :
    outs.length = old.length ∧
      m = ∑ i ∈ Finset.range old.length,
          (outs.getD i (LayerOut.mk 0 0 0)).direct_stress * width *
            zmid depth old.length i * (depth / old.length) ∧
      depth / old.length * old.length = depth ∧
      (∀ i j : ℕ, i < j → j < old.length →
        zmid depth old.length i < zmid depth old.length j) ∧
      (∀ i : ℕ, zmid depth old.length i =
        ((-(1 / 2) * depth + i * (depth / old.length)) +
          (-(1 / 2) * depth + (i + 1 : ℕ) * (depth / old.length))) / 2) := by
  have hNq : (0 : ℚ) < (old.length : ℚ) := by
    exact_mod_cast Nat.lt_of_lt_of_le Nat.zero_lt_one hN
  have ht : 0 < depth / (old.length : ℚ) := div_pos hdepth hNq
  obtain ⟨hlen, hm⟩ := qpStressAux_spec p width (depth / (old.length : ℚ))
    strain_increment old (-(1 / 2) * depth) 0 outs m h
  refine ⟨hlen, ?_, ?_, ?_, ?_⟩
  · rw [hm, zero_add]
    exact Finset.sum_congr rfl fun i _ => by rw [zmid]
  · field_simp
  · intro i j hij hj
    have hcast : (i : ℚ) < (j : ℚ) := by exact_mod_cast hij
    have hmul := mul_lt_mul_of_pos_right hcast ht
    rw [zmid, zmid]
    linarith
  · intro i
    rw [zmid]
    push_cast
    ring

/-- C6 — witness: two elastic layers of a depth-2 section under unit
curvature increment. -/
theorem stress_resultant_integration_witness :
    (computeQpStress elasticParams 1 2 1 [LayerOld.mk 0 0 0, LayerOld.mk 0 0 0]
        = .ok ([LayerOut.mk (-(1 / 2)) 0 0, LayerOut.mk (1 / 2) 0 0],
          1 / 2)) ∧
      (([LayerOut.mk (-(1 / 2)) 0 0, LayerOut.mk (1 / 2) 0 0] :
          List LayerOut).length =
        ([LayerOld.mk 0 0 0, LayerOld.mk 0 0 0] : List LayerOld).length ∧
      (1 / 2 : ℚ) = ∑ i ∈ Finset.range
          ([LayerOld.mk 0 0 0, LayerOld.mk 0 0 0] : List LayerOld).length,
          (([LayerOut.mk (-(1 / 2)) 0 0, LayerOut.mk (1 / 2) 0 0] :
              List LayerOut).getD i (LayerOut.mk 0 0 0)).direct_stress * 1 *
            zmid 2 ([LayerOld.mk 0 0 0, LayerOld.mk 0 0 0] :
              List LayerOld).length i *
            (2 / ([LayerOld.mk 0 0 0, LayerOld.mk 0 0 0] :
              List LayerOld).length) ∧
      (2 : ℚ) / ([LayerOld.mk 0 0 0, LayerOld.mk 0 0 0] :
          List LayerOld).length *
          ([LayerOld.mk 0 0 0, LayerOld.mk 0 0 0] : List LayerOld).length =
        2 ∧
      (∀ i j : ℕ, i < j →
        j < ([LayerOld.mk 0 0 0, LayerOld.mk 0 0 0] : List LayerOld).length →
        zmid 2 ([LayerOld.mk 0 0 0, LayerOld.mk 0 0 0] :
            List LayerOld).length i <
          zmid 2 ([LayerOld.mk 0 0 0, LayerOld.mk 0 0 0] :
            List LayerOld).length j) ∧
      (∀ i : ℕ, zmid 2 ([LayerOld.mk 0 0 0, LayerOld.mk 0 0 0] :
          List LayerOld).length i =
        ((-(1 / 2) * 2 + i * (2 / ([LayerOld.mk 0 0 0, LayerOld.mk 0 0 0] :
            List LayerOld).length)) +
          (-(1 / 2) * 2 + (i + 1 : ℕ) *
            (2 / ([LayerOld.mk 0 0 0, LayerOld.mk 0 0 0] :
              List LayerOld).length))) / 2)) := by
  have h1 : returnMapLayer elasticParams 1 (-(1 / 2)) (LayerOld.mk 0 0 0) =
      .ok (LayerOut.mk (-(1 / 2)) 0 0) := by
    norm_num [returnMapLayer, qabs, elasticParams]
  have h2 : returnMapLayer elasticParams 1 (1 / 2) (LayerOld.mk 0 0 0) =
      .ok (LayerOut.mk (1 / 2) 0 0) := by
    norm_num [returnMapLayer, qabs, elasticParams]
  have hcomp : computeQpStress elasticParams 1 2 1
      [LayerOld.mk 0 0 0, LayerOld.mk 0 0 0] =
      .ok ([LayerOut.mk (-(1 / 2)) 0 0, LayerOut.mk (1 / 2) 0 0], 1 / 2) := by
    norm_num [computeQpStress, qpStressAux, h1, h2]
  exact ⟨hcomp, stress_resultant_integration elasticParams 1 2 1 _ _ _
    (by simp) (by norm_num) hcomp⟩

/-- A layer that satisfies its yield inequality is returned unchanged by a
zero strain increment. -/
theorem returnMapLayer_elastic (p : PlasticityParams) (z : ℚ) (l : LayerOld)
    (hadm : qabs l.direct_stress_old ≤
      p.yield_stress + l.hardening_variable_old) :
    returnMapLayer p 0 z l = .ok (stayLayer l) := by
  rw [returnMapLayer]
  simp only [mul_zero, zero_mul, add_zero]
  rw [if_neg (not_lt.mpr (by linarith))]
  simp [stayLayer]

/-- With zero strain increment and admissible layers, the layer loop copies
every layer and accumulates the moment of the unchanged stresses. -/
theorem qpStressAux_elastic (p : PlasticityParams) (w t : ℚ) :
    ∀ (olds : List LayerOld) (z m0 : ℚ),
      (∀ l ∈ olds, qabs l.direct_stress_old ≤
        p.yield_stress + l.hardening_variable_old) →
      qpStressAux p w t 0 olds z m0 =
        .ok (olds.map stayLayer,
          m0 + ∑ i ∈ Finset.range olds.length,
            (olds.getD i (LayerOld.mk 0 0 0)).direct_stress_old * w *
              (z + t / 2 + i * t) * t) := by
  intro olds
  induction olds with
  | nil => intro z m0 _; simp [qpStressAux]
  | cons l rest ih =>
    intro z m0 hadm
    rw [qpStressAux]
    simp only [returnMapLayer_elastic p (z + t / 2) l (hadm l (by simp)),
      ih (z + t / 2 + t / 2) _ (fun x hx => hadm x (by simp [hx]))]
    have hterm : ∀ i ∈ Finset.range rest.length,
        ((l :: rest).getD (i + 1) (LayerOld.mk 0 0 0)).direct_stress_old *
            w * (z + t / 2 + (i + 1 : ℕ) * t) * t =
          (rest.getD i (LayerOld.mk 0 0 0)).direct_stress_old * w *
            (z + t / 2 + t / 2 + t / 2 + i * t) * t := by
      intro i _
      rw [List.getD_cons_succ]
      push_cast
      ring
    simp only [List.map_cons, List.length_cons]
    rw [Finset.sum_range_succ', Finset.sum_congr rfl hterm]
    have hfinal : m0 + ((stayLayer l).direct_stress * w * (z + t / 2) * t) +
        ∑ i ∈ Finset.range rest.length,
          (rest.getD i (LayerOld.mk 0 0 0)).direct_stress_old * w *
            (z + t / 2 + t / 2 + t / 2 + i * t) * t =
        m0 + (∑ i ∈ Finset.range rest.length,
          (rest.getD i (LayerOld.mk 0 0 0)).direct_stress_old * w *
            (z + t / 2 + t / 2 + t / 2 + i * t) * t +
          ((l :: rest).getD 0 (LayerOld.mk 0 0 0)).direct_stress_old * w *
            (z + t / 2 + (0 : ℕ) * t) * t) := by
      simp only [List.getD_cons_zero, stayLayer, Nat.cast_zero, zero_mul,
        add_zero]
      ring
    rw [← hfinal]

/-- C7 (amended) — if both rotation increments vanish (so the curvature-driven
strain increment is zero) and every layer's previous stress satisfies its
yield inequality `|σ_old| ≤ yield_stress + hardening_old` — as any state left
by a converged previous solve does, up to tolerance — then every layer's
stress, plastic strain and hardening variable are returned unchanged and the
integrated stress resultant equals the previous-step value (the moment of the
unchanged stresses).  A previous state violating a yield inequality is
re-mapped even under zero increments — see the counterexample. -/
theorem zero_increment_preserves_state (p : PlasticityParams)
    (R : Matrix (Fin 3) (Fin 3) ℚ) (rot0 rot1 : Fin 3 → ℚ)
    (original_length width depth : ℚ) (old : List LayerOld) (stres_old : ℚ)
    (h0 : rot0 = 0) (h1 : rot1 = 0)
    (hadm : ∀ l ∈ old, qabs l.direct_stress_old ≤
      p.yield_stress + l.hardening_variable_old)
    (hres : stres_old = ∑ i ∈ Finset.range old.length,
      (old.getD i (LayerOld.mk 0 0 0)).direct_stress_old * width *
        zmid depth old.length i * (depth / old.length)) :
    computeQpStress p width depth (totalStretch R rot0 rot1 original_length)
        old = .ok (old.map stayLayer, stres_old) := by
  have hstretch : totalStretch R rot0 rot1 original_length = 0 := by
    subst h0 h1
    have hz : (fun i => 1 / original_length *
        ((0 : Fin 3 → ℚ) i - (0 : Fin 3 → ℚ) i)) = (0 : Fin 3 → ℚ) := by
      funext i; simp
    rw [totalStretch, hz, Matrix.mulVec_zero]
    simp
  rw [hstretch, computeQpStress,
    qpStressAux_elastic p width (depth / (old.length : ℚ)) old
      (-(1 / 2) * depth) 0 hadm, zero_add, hres]
  have hsum : ∑ i ∈ Finset.range old.length,
      (old.getD i (LayerOld.mk 0 0 0)).direct_stress_old * width *
        (-(1 / 2) * depth + depth / (old.length : ℚ) / 2 +
          i * (depth / (old.length : ℚ))) * (depth / (old.length : ℚ)) =
      ∑ i ∈ Finset.range old.length,
        (old.getD i (LayerOld.mk 0 0 0)).direct_stress_old * width *
          zmid depth old.length i * (depth / old.length) :=
    Finset.sum_congr rfl fun i _ => by rw [zmid]
  rw [hsum]

/-- C7 — counterexample.  The claim quantifies over **every** previous state:
take a single layer whose stored stress `10` already violates the yield
inequality (`|10| > yield 1 + hardening 0`).  The rotation increments are
zero, hence the curvature increment is zero, yet the return mapping changes
the layer stress from `10` to `1` and the plastic strain from `0` to `9`. -/
theorem zero_increment_changes_overstressed_layer :
    totalStretch (1 : Matrix (Fin 3) (Fin 3) ℚ) 0 0 1 = 0 ∧
      computeQpStress c7Params 1 2 0 [LayerOld.mk 10 0 0] =
        .ok ([LayerOut.mk 1 9 0], 0) ∧
      (1 : ℚ) ≠ 10 := by
  have hstretch : totalStretch (1 : Matrix (Fin 3) (Fin 3) ℚ) 0 0 1 = 0 := by
    have hz : (fun i => 1 / (1 : ℚ) *
        ((0 : Fin 3 → ℚ) i - (0 : Fin 3 → ℚ) i)) = (0 : Fin 3 → ℚ) := by
      funext i; simp
    rw [totalStretch, hz, Matrix.mulVec_zero]
    simp
  have hc0 : newtonCond c7Params (initNewtonState c7Params 10 0) = true := by
    norm_num [newtonCond, initNewtonState, qabs, c7Params]
  have hstep : newtonStep c7Params 10 0 0 (initNewtonState c7Params 10 0) =
      NewtonState.mk 9 0 0 1 := by
    norm_num [newtonStep, initNewtonState, computeHardeningValue,
      computeHardeningDerivative, qabs, c7Params, NewtonState.mk.injEq]
  have hc1 : newtonCond c7Params (NewtonState.mk 9 0 0 1) = false := by
    norm_num [newtonCond, qabs, c7Params]
  have hloop : newtonLoop c7Params 10 0 0 max_its
      (initNewtonState c7Params 10 0) = .ok (NewtonState.mk 9 0 0 1) := by
    rw [show max_its = 998 + 1 + 1 from rfl, newtonLoop_succ, if_pos hc0,
      hstep, newtonLoop_succ, if_neg (by simp [hc1])]
  have hret : returnMapLayer c7Params 0 0 (LayerOld.mk 10 0 0) =
      .ok (LayerOut.mk 1 9 0) := by
    rw [returnMapLayer]
    simp only [mul_zero, zero_mul, add_zero]
    rw [if_pos (by norm_num [qabs, c7Params]), hloop]
    norm_num [msign, c7Params, LayerOut.mk.injEq]
  refine ⟨hstretch, ?_, by norm_num⟩
  norm_num [computeQpStress, qpStressAux, hret]

/-- C7 — witness for the amended theorem: one admissible layer
(`|σ_old| = 1 ≤ 1 + 0`), identity rotation, zero rotation increments. -/
theorem zero_increment_preserves_state_witness :
    (∀ l ∈ [LayerOld.mk 1 0 0], qabs l.direct_stress_old ≤
        c7Params.yield_stress + l.hardening_variable_old) ∧
      ((0 : ℚ) = ∑ i ∈ Finset.range
          ([LayerOld.mk 1 0 0] : List LayerOld).length,
          (([LayerOld.mk 1 0 0] : List LayerOld).getD i
              (LayerOld.mk 0 0 0)).direct_stress_old * 1 *
            zmid 2 ([LayerOld.mk 1 0 0] : List LayerOld).length i *
            (2 / ([LayerOld.mk 1 0 0] : List LayerOld).length)) ∧
      computeQpStress c7Params 1 2
          (totalStretch (1 : Matrix (Fin 3) (Fin 3) ℚ) 0 0 1)
          [LayerOld.mk 1 0 0] =
        .ok (([LayerOld.mk 1 0 0] : List LayerOld).map stayLayer, 0) := by
  have hadm : ∀ l ∈ [LayerOld.mk 1 0 0], qabs l.direct_stress_old ≤
      c7Params.yield_stress + l.hardening_variable_old := by
    intro l hl
    simp only [List.mem_singleton] at hl
    subst hl
    norm_num [qabs, c7Params]
  have hres : (0 : ℚ) = ∑ i ∈ Finset.range
      ([LayerOld.mk 1 0 0] : List LayerOld).length,
      (([LayerOld.mk 1 0 0] : List LayerOld).getD i
          (LayerOld.mk 0 0 0)).direct_stress_old * 1 *
        zmid 2 ([LayerOld.mk 1 0 0] : List LayerOld).length i *
        (2 / ([LayerOld.mk 1 0 0] : List LayerOld).length) := by
    norm_num [zmid]
  exact ⟨hadm, hres,
    zero_increment_preserves_state c7Params 1 0 0 1 1 2 [LayerOld.mk 1 0 0] 0
      rfl rfl hadm hres⟩

end LayeredBeam
